import Mathlib

/-!
Shallow embedding of the stream-correlation logic of
`src/frontend/src/App.tsx` (the React client of the LangGraph research
agent).  JavaScript runtime values that flow through the event callbacks
are modelled by the inductive `JsValue`; the component state handled via
React `useState`/`useRef` is the structure `AppState`; each callback of
the component (`onCustomEvent`, the historical-activities `useEffect`,
`handleSubmit`, `handleCancel`) becomes a pure state transformer, with
`Date.now()` passed in as an explicit `now : Nat` parameter.
-/

set_option maxHeartbeats 1000000
set_option maxRecDepth 100000

namespace App

/-- A JavaScript runtime value as it appears in the event stream: the
`data : unknown` argument of `onCustomEvent` and everything extracted from
it.  Numbers are modelled as integers (no claim depends on float
behaviour). -/
inductive JsValue where
  | undefined : JsValue
  | null : JsValue
  | bool : Bool → JsValue
  | num : Int → JsValue
  | str : String → JsValue
  | arr : List JsValue → JsValue
  | obj : List (String × JsValue) → JsValue
  deriving Repr

/-- JavaScript truthiness of a value (`if (v)`). -/
def jsTruthy : JsValue → Bool
  | .undefined => false
  | .null => false
  | .bool b => b
  | .num n => n != 0
  | .str s => !s.isEmpty
  | .arr _ => true
  | .obj _ => true

/-- `data && typeof data === 'object'`: `null` is excluded by truthiness,
objects and arrays both have `typeof` "object". -/
def isEnvObject : JsValue → Bool
  | .obj _ => true
  | .arr _ => true
  | _ => false

/-- Property access `v.k`: `undefined` on non-objects and missing keys. -/
def getField (v : JsValue) (k : String) : JsValue :=
  match v with
  | .obj fields =>
    match fields.lookup k with
    | some x => x
    | none => .undefined
  | _ => .undefined

/-- Strict equality `v === "s"` against a string literal. -/
def jsEqStr : JsValue → String → Bool
  | .str a, b => a == b
  | _, _ => false

/-- `v || dflt` (JavaScript or-default on a possibly-falsy value). -/
def jsOr (v dflt : JsValue) : JsValue :=
  if jsTruthy v then v else dflt

/-- `v.length` where it is defined: string length (code points stand in
for UTF-16 units) and array length; `undefined` otherwise. -/
def jsLength : JsValue → Option Nat
  | .str s => some s.length
  | .arr xs => some xs.length
  | _ => none

/-- `v.length > n`: `undefined > n` is `false` in JavaScript. -/
def jsLenGt (v : JsValue) (n : Nat) : Bool :=
  match jsLength v with
  | some l => decide (n < l)
  | none => false

/-- `v.length` coerced to a number when present, `0` otherwise (only used
after a `jsLenGt` guard). -/
def jsLenVal (v : JsValue) : Nat :=
  match jsLength v with
  | some l => l
  | none => 0

/-- `v.substring(0, n)`: a genuine substring for strings, a thrown
`TypeError` (modelled as `Except.error`) for every other value. -/
def jsSubstring : JsValue → Nat → Except String String
  | .str s, n => .ok (s.take n)
  | _, _ => .error "TypeError: substring is not a function"

/-- The truncation expression the source repeats for several nodes:
`message.length > limit ? message.substring(0, limit) + '...' : message`.
For a non-string with no `.length` the guard is false and the value passes
through unchanged; an over-long array makes `.substring` throw. -/
def jsTruncExpr (limit : Nat) (msg : JsValue) : Except String JsValue :=
  if jsLenGt msg limit then
    (jsSubstring msg limit).map (fun t => .str (t ++ "..."))
  else
    .ok msg

/-- String coercion `String(v)` as used by template interpolation.
Array elements are joined with commas; objects print as
`[object Object]`. -/
def jsDisplay : JsValue → String
  | .undefined => "undefined"
  | .null => "null"
  | .bool true => "true"
  | .bool false => "false"
  | .num n => toString n
  | .str s => s
  | .arr xs => String.intercalate "," (jsDisplayList xs)
  | .obj _ => "[object Object]"
where
  /-- Displays of the elements of an array. -/
  jsDisplayList : List JsValue → List String
    | [] => []
    | x :: xs => jsDisplay x :: jsDisplayList xs

/-- Minimal JSON string escaping used by `JSON.stringify` (quote and
backslash; the payloads of every claim contain nothing else that needs
escaping). -/
def jsonEscape (s : String) : String :=
  String.mk (s.data.foldr (fun c acc =>
    if c = '"' then '\\' :: '"' :: acc
    else if c = '\\' then '\\' :: '\\' :: acc
    else c :: acc) [])

/-- `JSON.stringify(v)`.  `undefined` members of objects are omitted and
`undefined` array elements become `null`, as in JavaScript. -/
def jsonStringify : JsValue → String
  | .undefined => "null"
  | .null => "null"
  | .bool true => "true"
  | .bool false => "false"
  | .num n => toString n
  | .str s => "\"" ++ jsonEscape s ++ "\""
  | .arr xs => "[" ++ String.intercalate "," (jsonStringifyList xs) ++ "]"
  | .obj fields => "\x7b" ++ String.intercalate "," (jsonStringifyFields fields) ++ "\x7d"
where
  /-- Stringified elements of an array. -/
  jsonStringifyList : List JsValue → List String
    | [] => []
    | x :: xs => jsonStringify x :: jsonStringifyList xs
  /-- Stringified members of an object (`undefined`-valued members are
  dropped). -/
  jsonStringifyFields : List (String × JsValue) → List String
    | [] => []
    | (_, .undefined) :: fs => jsonStringifyFields fs
    | (k, v) :: fs => ("\"" ++ jsonEscape k ++ "\":" ++ jsonStringify v) :: jsonStringifyFields fs

/-- Translation of a single JSON escape character (after a backslash). -/
def unescapeChar (c : Char) : Char :=
  if c = 'n' then '\n'
  else if c = 't' then '\t'
  else if c = 'r' then '\r'
  else c

/-- Skip JSON whitespace. -/
def skipWs (cs : List Char) : List Char :=
  cs.dropWhile (fun c => c = ' ' || c = '\t' || c = '\n' || c = '\r')

/-- Body of a JSON string literal (after the opening quote), with an
accumulator of already-read characters in reverse. -/
def parseStrBody : List Char → List Char → Option (String × List Char)
  | [], _ => none
  | '"' :: rest, acc => some (String.mk acc.reverse, rest)
  | '\\' :: c :: rest, acc => parseStrBody rest (unescapeChar c :: acc)
  | c :: rest, acc => parseStrBody rest (c :: acc)

/-- Decimal digits to a natural number. -/
def digitsToNat (ds : List Char) : Nat :=
  ds.foldl (fun a c => a * 10 + (c.toNat - 48)) 0

/-- Unsigned JSON number; a fractional part is consumed but dropped (the
model keeps integer precision, which every payload in the claims has). -/
def parseNumNat (cs : List Char) : Option (Nat × List Char) :=
  let ds := cs.takeWhile Char.isDigit
  if ds.isEmpty then none
  else
    let rest := cs.drop ds.length
    let rest2 := match rest with
      | '.' :: more => more.dropWhile Char.isDigit
      | _ => rest
    some (digitsToNat ds, rest2)

/-- Possibly-signed JSON number. -/
def parseNum (cs : List Char) : Option (Int × List Char) :=
  match cs with
  | '-' :: rest => (parseNumNat rest).map (fun p => (-(p.1 : Int), p.2))
  | _ => (parseNumNat cs).map (fun p => ((p.1 : Int), p.2))

mutual

/-- Fueled recursive-descent JSON value parser. -/
def parseVal : Nat → List Char → Option (JsValue × List Char)
  | 0, _ => none
  | fuel+1, cs =>
    match skipWs cs with
    | 'n' :: 'u' :: 'l' :: 'l' :: rest => some (.null, rest)
    | 't' :: 'r' :: 'u' :: 'e' :: rest => some (.bool true, rest)
    | 'f' :: 'a' :: 'l' :: 's' :: 'e' :: rest => some (.bool false, rest)
    | '"' :: rest => (parseStrBody rest []).map (fun p => (.str p.1, p.2))
    | '[' :: rest =>
      (match skipWs rest with
       | ']' :: r => some (.arr [], r)
       | cs2 => (parseElems fuel cs2).map (fun p => (.arr p.1, p.2)))
    | '\x7b' :: rest =>
      (match skipWs rest with
       | '\x7d' :: r => some (.obj [], r)
       | cs2 => (parseMembers fuel cs2).map (fun p => (.obj p.1, p.2)))
    | cs2 => (parseNum cs2).map (fun p => (.num p.1, p.2))

/-- Comma-separated array elements up to the closing bracket. -/
def parseElems : Nat → List Char → Option (List JsValue × List Char)
  | 0, _ => none
  | fuel+1, cs =>
    match parseVal fuel cs with
    | none => none
    | some (v, rest) =>
      match skipWs rest with
      | ',' :: r =>
        (match parseElems fuel r with
         | some (xs, r2) => some (v :: xs, r2)
         | none => none)
      | ']' :: r => some ([v], r)
      | _ => none

/-- Comma-separated object members up to the closing brace. -/
def parseMembers : Nat → List Char → Option (List (String × JsValue) × List Char)
  | 0, _ => none
  | fuel+1, cs =>
    match skipWs cs with
    | '"' :: rest =>
      (match parseStrBody rest [] with
       | none => none
       | some (k, r1) =>
         match skipWs r1 with
         | ':' :: r2 =>
           (match parseVal fuel r2 with
            | none => none
            | some (v, r3) =>
              match skipWs r3 with
              | ',' :: r4 =>
                (match parseMembers fuel r4 with
                 | some (fs, r5) => some ((k, v) :: fs, r5)
                 | none => none)
              | '\x7d' :: r4 => some ([(k, v)], r4)
              | _ => none)
         | _ => none)
    | _ => none

end

/-- `JSON.parse(s)`: `some` on success, `none` stands for a thrown
`SyntaxError`.  The fuel bounds parser nesting depth and is generous. -/
def parseJson (s : String) : Option JsValue :=
  match parseVal (2 * s.length + 2) s.data with
  | some (v, rest) => if (skipWs rest).isEmpty then some v else none
  | none => none

/-- `haystack.includes(needle)` on strings. -/
def strContainsAux (hay needle : List Char) : Bool :=
  match hay with
  | [] => needle.isEmpty
  | _ :: rest => needle.isPrefixOf hay || strContainsAux rest needle

/-- `message.includes("...")`. -/
def strContains (hay needle : String) : Bool :=
  strContainsAux hay.data needle.data

/-- First match of the regular expression `共返回(\d+)个` in a character
list: a maximal nonempty digit run between the literal characters, with
the scan restarting at the next position on a failed match attempt. -/
def docCountScan : List Char → Option String
  | [] => none
  | c :: rest =>
    if c = '共' && ['返', '回'].isPrefixOf rest then
      let after := rest.drop 2
      let digits := after.takeWhile Char.isDigit
      if digits.isEmpty then docCountScan rest
      else
        match after.drop digits.length with
        | '个' :: _ => some (String.mk digits)
        | _ => docCountScan rest
    else docCountScan rest

/-- A timeline entry as built inside `onCustomEvent` before the timestamp
is attached: `{ title, data }`. -/
structure ProcessedEventData where
  title : String
  data : JsValue

/-- A `ProcessedEvent` as stored in `processedEventsTimeline`: the event
data spread together with `timestamp: new Date()` (modelled as the
`Date.now()` tick current when the event was processed). -/
structure ProcessedEvent where
  title : String
  data : JsValue
  timestamp : Nat

/-- Message role: the SDK message `type` values used by the component. -/
inductive Role where
  | human : Role
  | ai : Role
  deriving DecidableEq

/-- A chat message: `{ type, content, id }`.  The component always
constructs messages with an id string. -/
structure Message where
  type : Role
  content : JsValue
  id : String

/-- The React component state owned by `App`: the four `useState` values
and the `hasFinalizeEventOccurredRef` ref.  `historicalActivities`
(a JavaScript object keyed by message id) is an association list whose
update mirrors the object spread `{...prev, [id]: v}`. -/
structure AppState where
  processedEventsTimeline : List ProcessedEvent
  historicalActivities : List (String × List ProcessedEvent)
  chatMessages : List Message
  hasFinalizeEventOccurred : Bool
  error : Option JsValue

/-- The state a freshly loaded page starts from (all `useState` initial
values, ref `false`). -/
def initialState : AppState where
  processedEventsTimeline := []
  historicalActivities := []
  chatMessages := []
  hasFinalizeEventOccurred := false
  error := none

/-- The object spread `{...prev, [k]: v}`: an existing key keeps its
position and gets the new value; a new key is appended. -/
def recordSet (m : List (String × List ProcessedEvent)) (k : String)
    (v : List ProcessedEvent) : List (String × List ProcessedEvent) :=
  match m with
  | [] => [(k, v)]
  | (k', v') :: rest =>
    if k' == k then (k', v) :: rest else (k', v') :: recordSet rest k v

/-- The `doc_research` case of the node switch.  `message.match` throws a
`TypeError` on a non-string message. -/
def docResearchCase (msg : JsValue) : Except String ProcessedEventData := do
  let mstr ← match msg with
    | .str s => Except.ok s
    | _ => Except.error "TypeError: match is not a function"
  let docCount := (docCountScan mstr.data).getD "unknown"
  let relevanceInfo :=
    if strContains mstr "相关度" then "Found " ++ docCount ++ " relevant documents"
    else "Searching knowledge base"
  Except.ok ⟨"📚 Knowledge Base Research",
    .str (relevanceInfo ++
      (if 100 < mstr.length then " - " ++ mstr.take 100 ++ "..." else " - " ++ mstr))⟩

/-- The inner `try` of the `reflection` case: parse the message as JSON
and synthesize a summary from the fields that are present.  An error
(parse failure, or `.substring` on a length-bearing non-string gap) is
caught by the inner `catch`. -/
def reflectionTryBody (msg : JsValue) : Except String ProcessedEventData := do
  let reflectionData ← match parseJson (jsDisplay msg) with
    | some v => Except.ok v
    | none => Except.error "SyntaxError: Unexpected token in JSON"
  let isSufficient := getField reflectionData "is_sufficient"
  let knowledgeGap := getField reflectionData "knowledge_gap"
  let followUpQueries := jsOr (getField reflectionData "follow_up_queries") (.arr [])
  let sufficiencyPart : List String :=
    match isSufficient with
    | .undefined => []
    | v => [if jsTruthy v then "✅ Research results are sufficient"
            else "⚠️ Further research needed"]
  let gapPart : List String ←
    if jsTruthy knowledgeGap then
      if jsLenGt knowledgeGap 80 then
        (jsSubstring knowledgeGap 80).map (fun t => ["Knowledge Gap: " ++ t ++ "..."])
      else Except.ok ["Knowledge Gap: " ++ jsDisplay knowledgeGap]
    else Except.ok []
  let followUpPart : List String :=
    if jsLenGt followUpQueries 0 then
      ["Follow-up queries: " ++ toString (jsLenVal followUpQueries) ++ " planned"]
    else []
  let details := sufficiencyPart ++ gapPart ++ followUpPart
  Except.ok ⟨"🤔 Research Reflection",
    .str (if details.isEmpty then "Analyzing research results..."
          else String.intercalate " | " details)⟩

/-- The `reflection` case with its fallback `catch`: a failure inside the
inner try falls back to the truncated raw message (which may itself throw
outward for an over-long array message). -/
def reflectionCase (msg : JsValue) : Except String ProcessedEventData :=
  match reflectionTryBody msg with
  | .ok r => .ok r
  | .error _ =>
    (jsTruncExpr 150 msg).map (fun d => ⟨"🤔 Research Reflection", d⟩)

/-- The `switch (nodeName)` dispatch creating a timeline event for a
LangGraph node event.  An `Except.error` models an exception reaching the
outer `catch` of `onCustomEvent`. -/
def dispatchNode (nodeName msg : JsValue) : Except String (Option ProcessedEventData) :=
  if jsEqStr nodeName "generate_query" then
    (jsTruncExpr 150 msg).map (fun d => some ⟨"🔍 Generating Search Queries", d⟩)
  else if jsEqStr nodeName "web_research" then
    (jsTruncExpr 150 msg).map (fun d => some ⟨"🌐 Web Research", d⟩)
  else if jsEqStr nodeName "doc_research" then
    (docResearchCase msg).map some
  else if jsEqStr nodeName "reflection" then
    (reflectionCase msg).map some
  else if jsEqStr nodeName "evaluate_research" then
    .ok (some ⟨"⚖️ Evaluating Research Progress", msg⟩)
  else if jsEqStr nodeName "finalize_answer" then
    .ok (some ⟨"✨ Generating Final Answer",
      .str "Consolidating all research findings to generate a comprehensive answer..."⟩)
  else
    (jsTruncExpr 150 msg).map (fun d => some ⟨"🔧 " ++ jsDisplay nodeName, d⟩)

/-- The fallback `switch (eventData.type)` for custom events without a
truthy `langgraph_node`/`message` pair.  `error_occurred` additionally
calls `setError`. -/
def dispatchFallback (data : JsValue) (s : AppState) : AppState × Option ProcessedEventData :=
  if jsEqStr (getField data "type") "progress_update" then
    (s, some ⟨"📊 Progress Update",
      jsOr (getField data "message") (.str "Progress update received")⟩)
  else if jsEqStr (getField data "type") "error_occurred" then
    ({ s with error := some (jsOr (getField data "message") (.str "An unknown error occurred")) },
     some ⟨"❌ Error", jsOr (getField data "message") (.str "An error occurred")⟩)
  else if jsEqStr (getField data "type") "status_change" then
    (s, some ⟨"🔄 Status Change",
      jsOr (getField data "message") (.str "Status changed")⟩)
  else
    (s, some ⟨"📢 Custom Event",
      .str ("Received: " ++ (jsonStringify data).take 100 ++ "...")⟩)

/-- The `try` block of `onCustomEvent` at tick `now`: the state updates it
performs (chat append and latch on a `finalize_answer` node event,
`setError` in the fallback) together with either the produced event or a
thrown exception.  All state updates precede any throwing operation in
the source, so they survive a throw. -/
def customEventBody (now : Nat) (data : JsValue) (s : AppState) :
    AppState × Except String (Option ProcessedEventData) :=
  if isEnvObject data then
    if jsTruthy (getField data "langgraph_node") && jsTruthy (getField data "message") then
      ((if jsEqStr (getField data "langgraph_node") "finalize_answer" then
          { s with
            chatMessages := s.chatMessages ++
              [⟨Role.ai, getField data "message", "finalize-" ++ toString now⟩],
            hasFinalizeEventOccurred := true }
        else s),
       dispatchNode (getField data "langgraph_node") (getField data "message"))
    else
      ((dispatchFallback data s).1, .ok (dispatchFallback data s).2)
  else
    (s, .ok none)

/-- The outer `catch` of `onCustomEvent`: a thrown exception is converted
into the degraded error event. -/
def caughtProcessed : Except String (Option ProcessedEventData) → Option ProcessedEventData
  | .ok pe => pe
  | .error m => some ⟨"❌ Custom Event Processing Error",
      .str ("An error occurred during custom event processing: " ++ m)⟩

/-- The trailing `if (processedEvent)` of `onCustomEvent`: append the
produced event, stamped with the current tick, to the timeline. -/
def appendProcessed (now : Nat) (pe : Option ProcessedEventData) (s : AppState) : AppState :=
  match pe with
  | some e =>
    { s with processedEventsTimeline :=
        s.processedEventsTimeline ++ [⟨e.title, e.data, now⟩] }
  | none => s

/-- The complete `onCustomEvent` callback: run the `try` body, convert a
caught exception into the degraded error event, and append the produced
event (if any) to the timeline with the current timestamp. -/
def onCustomEvent (now : Nat) (data : JsValue) (s : AppState) : AppState :=
  appendProcessed now (caughtProcessed (customEventBody now data s).2)
    (customEventBody now data s).1

/-- Process a list of timestamped custom events in arrival order. -/
def processEvents (evs : List (Nat × JsValue)) (s : AppState) : AppState :=
  evs.foldl (fun st e => onCustomEvent e.1 e.2 st) s

/-- The historical-activities `useEffect`: when a finalize event has been
latched, the stream is idle (`!thread.isLoading`) and the transcript is
nonempty, snapshot the current timeline under the last message's id
(provided that message is an `ai` message with a truthy id) and clear the
latch.  The guard failing leaves the state untouched. -/
def commitHistorical (isLoading : Bool) (s : AppState) : AppState :=
  if s.hasFinalizeEventOccurred && !isLoading && decide (0 < s.chatMessages.length) then
    match s.chatMessages.getLast? with
    | some lastMessage =>
      if lastMessage.type = Role.ai && !lastMessage.id.isEmpty then
        { s with
          historicalActivities :=
            recordSet s.historicalActivities lastMessage.id s.processedEventsTimeline,
          hasFinalizeEventOccurred := false }
      else { s with hasFinalizeEventOccurred := false }
    | none => { s with hasFinalizeEventOccurred := false }
  else s

/-- The request `thread.submit` receives. -/
structure SubmitRequest where
  messages : List Message
  initial_search_query_count : Nat
  max_research_loops : Nat
  reasoning_model : String

/-- The `switch (effort)` of `handleSubmit`, starting from the `(0, 0)`
initialization: `(initial_search_query_count, max_research_loops)`. -/
def effortParams (effort : String) : Nat × Nat :=
  if effort == "low" then (1, 1)
  else if effort == "medium" then (3, 3)
  else if effort == "high" then (5, 10)
  else (0, 0)

/-- `input.trim()`: strip leading and trailing whitespace (modelled on
the character list; the JavaScript and Lean whitespace predicates agree
on every whitespace character appearing in the claims). -/
def jsTrim (s : String) : String :=
  String.mk ((s.data.dropWhile Char.isWhitespace).reverse.dropWhile Char.isWhitespace).reverse

/-- `handleSubmit` at tick `now`: an input with empty trim returns
immediately; otherwise the timeline and latch are cleared, the human
message is appended, and the request forwarded to `thread.submit` is
returned alongside the new state. -/
def handleSubmit (now : Nat) (submittedInputValue effort model : String)
    (s : AppState) : AppState × Option SubmitRequest :=
  if (jsTrim submittedInputValue).isEmpty then (s, none)
  else
    let s1 := { s with processedEventsTimeline := [], hasFinalizeEventOccurred := false }
    let p := effortParams effort
    let userMessage : Message := ⟨Role.human, .str submittedInputValue, "user-" ++ toString now⟩
    let s2 := { s1 with chatMessages := s1.chatMessages ++ [userMessage] }
    let newMessages := s.chatMessages ++ [userMessage]
    (s2, some ⟨newMessages, p.1, p.2, model⟩)

/-- `handleCancel`: `thread.stop()` followed by `window.location.reload()`
— the reload restarts the client, so every piece of component state comes
back at its initial value. -/
def handleCancel (_s : AppState) : AppState :=
  initialState

/-- The `onError` stream callback: record the error message. -/
def onStreamError (message : String) (s : AppState) : AppState :=
  { s with error := some (.str message) }

/-- An envelope carrying a `finalize_answer` node event with literal
answer content `c`. -/
def finalizeEnv (c : String) : JsValue :=
  .obj [("langgraph_node", .str "finalize_answer"), ("message", .str c)]

/-- An envelope carrying a node event for node `n` with message `m`. -/
def nodeEnv (n m : String) : JsValue :=
  .obj [("langgraph_node", .str n), ("message", .str m)]

/-- Whether an envelope takes the terminal branch of `onCustomEvent`: an
object whose truthy `langgraph_node` is exactly `"finalize_answer"`
alongside a truthy `message`. -/
def isFinalizeEnvelope (d : JsValue) : Bool :=
  isEnvObject d &&
    (jsTruthy (getField d "langgraph_node") && jsTruthy (getField d "message")) &&
    jsEqStr (getField d "langgraph_node") "finalize_answer"

/-- Turn 1 of the key-collision scenario: submit, a terminal event
processed at tick 7, stream idle. -/
def overwriteTurn1 : AppState :=
  commitHistorical false (onCustomEvent 7 (finalizeEnv "A")
    (handleSubmit 1 "q1" "low" "gemini" initialState).1)

/-- Turn 2 of the key-collision scenario: a second submit, one query
event, then a terminal event whose `Date.now()` tick collides with turn
1's (the wall clock is not strictly monotonic), stream idle. -/
def overwriteTurn2 : AppState :=
  commitHistorical false (onCustomEvent 7 (finalizeEnv "B")
    (onCustomEvent 9 (nodeEnv "generate_query" "2 queries generated")
      (handleSubmit 8 "q2" "low" "gemini" overwriteTurn1).1))

/-- A single turn in which two terminal events arrive (at ticks 1 and 2)
before the stream goes idle. -/
def duplicateFinalizeState : AppState :=
  onCustomEvent 2 (finalizeEnv "B") (onCustomEvent 1 (finalizeEnv "A")
    (handleSubmit 0 "q" "low" "gemini" initialState).1)

/-- A single turn in which two terminal events are processed at the same
`Date.now()` tick. -/
def sameInstantState : AppState :=
  onCustomEvent 7 (finalizeEnv "B") (onCustomEvent 7 (finalizeEnv "A")
    (handleSubmit 0 "q" "low" "gemini" initialState).1)

/-- A state with one committed turn: a human message, an agent message
and one historical-activities snapshot. -/
def committedState : AppState :=
  commitHistorical false (onCustomEvent 7 (finalizeEnv "Done.")
    (handleSubmit 1 "hi" "low" "gemini" initialState).1)

/-- A 200-character message (two hundred copies of `x`). -/
def longMessage200 : String :=
  String.mk (List.replicate 200 'x')

/-! ## Helper lemmas -/

/-- Looking up a key just written by the object spread returns the new
value, whether the key was present before or not. -/
theorem recordSet_lookup (m : List (String × List ProcessedEvent))
    (k : String) (v : List ProcessedEvent) :
    (recordSet m k v).lookup k = some v := by
  induction m with
  | nil => simp [recordSet, List.lookup]
  | cons hd tl ih =>
    obtain ⟨k', v'⟩ := hd
    by_cases h : k' = k
    · subst h
      simp [recordSet, List.lookup]
    · have hb : (k' == k) = false := by simpa using h
      have hb' : (k == k') = false := by simpa using Ne.symm h
      simp [recordSet, hb, List.lookup, hb', ih]

/-- A freshly generated finalize id is a truthy (nonempty) string. -/
theorem finalizeId_isEmpty_false (x : String) :
    ("finalize-" ++ x).isEmpty = false := by
  have h3 : ("finalize-" ++ x).data
      = 'f' :: 'i' :: 'n' :: 'a' :: 'l' :: 'i' :: 'z' :: 'e' :: '-' :: x.data := rfl
  rw [Bool.eq_false_iff]
  intro h
  rw [String.isEmpty_iff] at h
  have h2 := congrArg String.data h
  rw [h3] at h2
  simp at h2

/-- The fallback dispatch only ever touches the error field of the
state. -/
theorem dispatchFallback_state (data : JsValue) (s : AppState) :
    (dispatchFallback data s).1.processedEventsTimeline = s.processedEventsTimeline ∧
    (dispatchFallback data s).1.historicalActivities = s.historicalActivities ∧
    (dispatchFallback data s).1.chatMessages = s.chatMessages ∧
    (dispatchFallback data s).1.hasFinalizeEventOccurred = s.hasFinalizeEventOccurred := by
  unfold dispatchFallback
  split
  · exact ⟨rfl, rfl, rfl, rfl⟩
  · split
    · exact ⟨rfl, rfl, rfl, rfl⟩
    · split
      · exact ⟨rfl, rfl, rfl, rfl⟩
      · exact ⟨rfl, rfl, rfl, rfl⟩

/-- The timeline append step never touches the transcript, the latch or
the history map. -/
theorem appendProcessed_state (now : Nat) (pe : Option ProcessedEventData) (s : AppState) :
    (appendProcessed now pe s).chatMessages = s.chatMessages ∧
    (appendProcessed now pe s).hasFinalizeEventOccurred = s.hasFinalizeEventOccurred ∧
    (appendProcessed now pe s).historicalActivities = s.historicalActivities := by
  cases pe <;> exact ⟨rfl, rfl, rfl⟩

/-- The try-block of `onCustomEvent` never touches the timeline or the
history map (the timeline append happens afterwards). -/
theorem customEventBody_state (now : Nat) (data : JsValue) (s : AppState) :
    (customEventBody now data s).1.processedEventsTimeline = s.processedEventsTimeline ∧
    (customEventBody now data s).1.historicalActivities = s.historicalActivities := by
  unfold customEventBody
  split
  · split
    · split <;> exact ⟨rfl, rfl⟩
    · exact ⟨(dispatchFallback_state data s).1, (dispatchFallback_state data s).2.1⟩
  · exact ⟨rfl, rfl⟩

/-- Without the terminal node branch firing, the try-block leaves the
transcript, the latch and the history map unchanged. -/
theorem customEventBody_nonterminal (now : Nat) (data : JsValue) (s : AppState)
    (h : isFinalizeEnvelope data = false) :
    (customEventBody now data s).1.chatMessages = s.chatMessages ∧
    (customEventBody now data s).1.hasFinalizeEventOccurred = s.hasFinalizeEventOccurred ∧
    (customEventBody now data s).1.historicalActivities = s.historicalActivities := by
  unfold isFinalizeEnvelope at h
  unfold customEventBody
  rcases hobj : isEnvObject data with _ | _
  · simp [hobj]
  · rcases hguard : jsTruthy (getField data "langgraph_node") &&
        jsTruthy (getField data "message") with _ | _
    · have hfb := dispatchFallback_state data s
      simp [hobj, hguard, hfb.2.1, hfb.2.2.1, hfb.2.2.2]
    · have hfin : jsEqStr (getField data "langgraph_node") "finalize_answer" = false := by
        rw [hobj, hguard] at h
        simpa using h
      simp [hobj, hguard, hfin]

/-- An event that is not a terminal (`finalize_answer`) envelope leaves
the transcript, the latch and the history map unchanged. -/
theorem onCustomEvent_nonterminal (now : Nat) (data : JsValue) (s : AppState)
    (h : isFinalizeEnvelope data = false) :
    (onCustomEvent now data s).chatMessages = s.chatMessages ∧
    (onCustomEvent now data s).hasFinalizeEventOccurred = s.hasFinalizeEventOccurred ∧
    (onCustomEvent now data s).historicalActivities = s.historicalActivities := by
  have hbody := customEventBody_nonterminal now data s h
  have happ := appendProcessed_state now
    (caughtProcessed (customEventBody now data s).2) (customEventBody now data s).1
  unfold onCustomEvent
  exact ⟨happ.1.trans hbody.1, happ.2.1.trans hbody.2.1, happ.2.2.trans hbody.2.2⟩

/-- A run of non-terminal events leaves the transcript, the latch and the
history map unchanged. -/
theorem processEvents_nonterminal (evs : List (Nat × JsValue)) (s : AppState)
    (h : ∀ p ∈ evs, isFinalizeEnvelope p.2 = false) :
    (processEvents evs s).chatMessages = s.chatMessages ∧
    (processEvents evs s).hasFinalizeEventOccurred = s.hasFinalizeEventOccurred ∧
    (processEvents evs s).historicalActivities = s.historicalActivities := by
  induction evs generalizing s with
  | nil => exact ⟨rfl, rfl, rfl⟩
  | cons hd tl ih =>
    have hhd := onCustomEvent_nonterminal hd.1 hd.2 s (h hd (List.mem_cons_self hd tl))
    have htl := ih (onCustomEvent hd.1 hd.2 s) (fun p hp => h p (List.mem_cons_of_mem hd hp))
    refine ⟨?_, ?_, ?_⟩
    · rw [processEvents] at htl ⊢
      rw [List.foldl_cons]
      exact htl.1.trans hhd.1
    · rw [processEvents] at htl ⊢
      rw [List.foldl_cons]
      exact htl.2.1.trans hhd.2.1
    · rw [processEvents] at htl ⊢
      rw [List.foldl_cons]
      exact htl.2.2.trans hhd.2.2

/-- Processing a terminal envelope with truthy content `c` at tick `now`
appends exactly the new agent message and the fixed finalize timeline
entry, and sets the latch. -/
theorem onCustomEvent_finalize (now : Nat) (c : String) (s : AppState)
    (hc : c.isEmpty = false) :
    onCustomEvent now (finalizeEnv c) s =
      { s with
        chatMessages := s.chatMessages ++ [⟨Role.ai, .str c, "finalize-" ++ toString now⟩],
        hasFinalizeEventOccurred := true,
        processedEventsTimeline := s.processedEventsTimeline ++
          [⟨"✨ Generating Final Answer",
            .str "Consolidating all research findings to generate a comprehensive answer...",
            now⟩] } := by
  have hln : getField (finalizeEnv c) "langgraph_node" = .str "finalize_answer" := rfl
  have hmsg : getField (finalizeEnv c) "message" = .str c := rfl
  have ht1 : jsTruthy (JsValue.str "finalize_answer") = true := rfl
  have ht2 : jsTruthy (JsValue.str c) = true := by simp [jsTruthy, hc]
  have heq : jsEqStr (JsValue.str "finalize_answer") "finalize_answer" = true := rfl
  have hdisp : dispatchNode (.str "finalize_answer") (.str c) =
      .ok (some ⟨"✨ Generating Final Answer",
        .str "Consolidating all research findings to generate a comprehensive answer..."⟩) := rfl
  unfold onCustomEvent customEventBody
  simp [show isEnvObject (finalizeEnv c) = true from rfl, hln, hmsg, ht1, ht2, heq, hdisp,
    caughtProcessed, appendProcessed]

/-- When the latch is set and the transcript ends in an agent message
with a truthy id, the idle-time effect snapshots the timeline under that
id and clears the latch. -/
theorem commitHistorical_terminal (s : AppState) (m : Message)
    (hflag : s.hasFinalizeEventOccurred = true)
    (hlast : s.chatMessages.getLast? = some m)
    (hai : m.type = Role.ai) (hid : m.id.isEmpty = false) :
    commitHistorical false s =
      { s with
        historicalActivities :=
          recordSet s.historicalActivities m.id s.processedEventsTimeline,
        hasFinalizeEventOccurred := false } := by
  unfold commitHistorical
  have hlen : 0 < s.chatMessages.length := by
    cases h : s.chatMessages with
    | nil => rw [h] at hlast; simp [List.getLast?] at hlast
    | cons a l => simp [h]
  simp [hflag, hlen, hlast, hai, hid]

/-! ## Claim theorems -/

/-- C1: in a turn consisting of non-terminal events followed by a terminal
(`finalize_answer`) event carrying answer content `c` and then stream
idle, exactly one agent message with content `c` is appended to the
transcript, and the historical-activities entry under that message's id
is exactly the accumulator's contents at commit time, in arrival order. -/
theorem terminal_event_commits_once (s0 : AppState) (pre : List (Nat × JsValue))
    (t : Nat) (c : String)
    (hpre : ∀ p ∈ pre, isFinalizeEnvelope p.2 = false)
    (hc : c.isEmpty = false) :
    (commitHistorical false (onCustomEvent t (finalizeEnv c) (processEvents pre s0))).chatMessages
        = s0.chatMessages ++ [⟨Role.ai, .str c, "finalize-" ++ toString t⟩] ∧
    ((commitHistorical false (onCustomEvent t (finalizeEnv c) (processEvents pre s0))).historicalActivities).lookup
          ("finalize-" ++ toString t)
        = some (onCustomEvent t (finalizeEnv c) (processEvents pre s0)).processedEventsTimeline := by
  have hrun := processEvents_nonterminal pre s0 hpre
  have hfin := onCustomEvent_finalize t c (processEvents pre s0) hc
  set aiMsg : Message := ⟨Role.ai, .str c, "finalize-" ++ toString t⟩ with haim
  have hlast : (onCustomEvent t (finalizeEnv c) (processEvents pre s0)).chatMessages.getLast?
      = some aiMsg := by
    rw [hfin]
    exact List.getLast?_concat _
  have hcommit := commitHistorical_terminal
    (onCustomEvent t (finalizeEnv c) (processEvents pre s0)) aiMsg
    (by rw [hfin]) hlast rfl (finalizeId_isEmpty_false _)
  constructor
  · rw [hcommit]
    show (onCustomEvent t (finalizeEnv c) (processEvents pre s0)).chatMessages
        = s0.chatMessages ++ [aiMsg]
    rw [hfin]
    show (processEvents pre s0).chatMessages ++ [aiMsg] = s0.chatMessages ++ [aiMsg]
    rw [hrun.1]
  · rw [hcommit]
    exact recordSet_lookup _ _ _

/-- C1 witness: a concrete turn (one query-generation event, then a
terminal event with content `"Done."`, then idle). -/
theorem terminal_event_commits_once_witness :
    ((∀ p ∈ [((1 : Nat), nodeEnv "generate_query" "Generated 2 queries")],
        isFinalizeEnvelope p.2 = false) ∧ ("Done." : String).isEmpty = false) ∧
    ((commitHistorical false (onCustomEvent 2 (finalizeEnv "Done.")
          (processEvents [((1 : Nat), nodeEnv "generate_query" "Generated 2 queries")] initialState))).chatMessages
        = initialState.chatMessages ++ [⟨Role.ai, .str "Done.", "finalize-" ++ toString 2⟩] ∧
      ((commitHistorical false (onCustomEvent 2 (finalizeEnv "Done.")
          (processEvents [((1 : Nat), nodeEnv "generate_query" "Generated 2 queries")] initialState))).historicalActivities).lookup
            ("finalize-" ++ toString 2)
          = some (onCustomEvent 2 (finalizeEnv "Done.")
              (processEvents [((1 : Nat), nodeEnv "generate_query" "Generated 2 queries")] initialState)).processedEventsTimeline) :=
  ⟨⟨by decide, by decide⟩,
   terminal_event_commits_once initialState
     [((1 : Nat), nodeEnv "generate_query" "Generated 2 queries")] 2 "Done."
     (by decide) (by decide)⟩

/-- C2 (refuted by the code): the history write is the object spread
`\x7b...prev, [id]: v\x7d`, which replaces an existing key.  Two turns whose
terminal events observe the same `Date.now()` tick commit under the same
key `"finalize-7"`, and the second commit replaces the first snapshot. -/
theorem historical_key_overwritten :
    overwriteTurn1.historicalActivities.lookup "finalize-7"
        = some [⟨"✨ Generating Final Answer",
            .str "Consolidating all research findings to generate a comprehensive answer...", 7⟩] ∧
    overwriteTurn2.historicalActivities.lookup "finalize-7"
        = some [⟨"🔍 Generating Search Queries", .str "2 queries generated", 9⟩,
            ⟨"✨ Generating Final Answer",
              .str "Consolidating all research findings to generate a comprehensive answer...", 7⟩] ∧
    overwriteTurn2.historicalActivities.lookup "finalize-7"
        ≠ overwriteTurn1.historicalActivities.lookup "finalize-7" := by
  refine ⟨rfl, rfl, ?_⟩
  rw [show overwriteTurn1.historicalActivities.lookup "finalize-7"
      = some [⟨"✨ Generating Final Answer",
          .str "Consolidating all research findings to generate a comprehensive answer...", 7⟩]
      from rfl,
    show overwriteTurn2.historicalActivities.lookup "finalize-7"
      = some [⟨"🔍 Generating Search Queries", .str "2 queries generated", 9⟩,
          ⟨"✨ Generating Final Answer",
            .str "Consolidating all research findings to generate a comprehensive answer...", 7⟩]
      from rfl]
  simp

/-- C3 (refuted by the code): a second terminal event in the same turn is
not guarded against; it appends a second agent message to the
transcript. -/
theorem second_terminal_appends_duplicate :
    duplicateFinalizeState.chatMessages =
      [⟨Role.human, .str "q", "user-0"⟩,
       ⟨Role.ai, .str "A", "finalize-1"⟩,
       ⟨Role.ai, .str "B", "finalize-2"⟩] ∧
    (duplicateFinalizeState.chatMessages.filter
        (fun m => decide (m.type = Role.ai))).length = 2 :=
  ⟨rfl, rfl⟩

/-- C6 (refuted by the code): message ids are derived from wall-clock
time alone (`finalize-` ++ `Date.now()`), so two terminal events processed
at the same tick produce two distinct agent messages carrying the same
id. -/
theorem same_instant_terminal_id_collision :
    sameInstantState.chatMessages.map Message.id
        = ["user-0", "finalize-7", "finalize-7"] ∧
    ¬ (sameInstantState.chatMessages.map Message.id).Nodup :=
  ⟨rfl, by decide⟩

/-- C8 (refuted by the code): `handleCancel` calls
`window.location.reload()`, which restarts the client: the transcript and
the history map of a state with committed history are reset to empty. -/
theorem cancel_resets_everything :
    committedState.chatMessages.length = 2 ∧
    committedState.historicalActivities.length = 1 ∧
    handleCancel committedState = initialState ∧
    (handleCancel committedState).chatMessages = [] ∧
    (handleCancel committedState).historicalActivities = [] :=
  ⟨rfl, rfl, rfl, rfl, rfl⟩

/-- C4 counterexample: a non-object envelope (here the string `"oops"`)
is dropped silently — no degraded ActivityEvent is produced, the state is
completely unchanged — contradicting the claim that malformed and
non-object envelopes yield a single degraded visible event. -/
theorem nonobject_envelope_dropped :
    onCustomEvent 0 (JsValue.str "oops") initialState = initialState ∧
    (onCustomEvent 0 (JsValue.str "oops") initialState).processedEventsTimeline = [] :=
  ⟨rfl, rfl⟩

/-- C4 (amended): classification never throws and appends at most one
timeline event per envelope; a malformed object envelope (for example
`\x7bunexpected: true\x7d`) produces exactly one degraded visible event;
but a non-object envelope is silently dropped — it produces no event and
leaves the state unchanged. -/
theorem classification_never_throws (t : Nat) (d : JsValue) (s : AppState) :
    ((onCustomEvent t d s).processedEventsTimeline = s.processedEventsTimeline ∨
      ∃ e, (onCustomEvent t d s).processedEventsTimeline
          = s.processedEventsTimeline ++ [e]) ∧
    (isEnvObject d = false → onCustomEvent t d s = s) ∧
    (onCustomEvent t (.obj [("unexpected", .bool true)]) s).processedEventsTimeline
        = s.processedEventsTimeline ++
          [⟨"📢 Custom Event", .str "Received: \x7b\"unexpected\":true\x7d...", t⟩] := by
  refine ⟨?_, ?_, ?_⟩
  · rcases hpe : caughtProcessed (customEventBody t d s).2 with _ | e
    · left
      unfold onCustomEvent
      rw [hpe]
      exact (customEventBody_state t d s).1
    · right
      refine ⟨⟨e.title, e.data, t⟩, ?_⟩
      unfold onCustomEvent
      rw [hpe]
      show (customEventBody t d s).1.processedEventsTimeline ++ [⟨e.title, e.data, t⟩]
          = s.processedEventsTimeline ++ [⟨e.title, e.data, t⟩]
      rw [(customEventBody_state t d s).1]
  · intro h
    unfold onCustomEvent customEventBody
    simp [h, caughtProcessed, appendProcessed]
  · rfl

/-- C4 witness: the amended statement at `t = 0`, the non-object envelope
`"oops"` and the initial state. -/
theorem classification_never_throws_witness :
    ((onCustomEvent 0 (JsValue.str "oops") initialState).processedEventsTimeline
          = initialState.processedEventsTimeline ∨
      ∃ e, (onCustomEvent 0 (JsValue.str "oops") initialState).processedEventsTimeline
          = initialState.processedEventsTimeline ++ [e]) ∧
    (isEnvObject (JsValue.str "oops") = false →
      onCustomEvent 0 (JsValue.str "oops") initialState = initialState) ∧
    (onCustomEvent 0 (.obj [("unexpected", .bool true)]) initialState).processedEventsTimeline
        = initialState.processedEventsTimeline ++
          [⟨"📢 Custom Event", .str "Received: \x7b\"unexpected\":true\x7d...", 0⟩] :=
  classification_never_throws 0 (JsValue.str "oops") initialState

/-- C5: the effort level maps to the outbound request parameters
`(initial_search_query_count, max_research_loops)` exactly as low ↦
(1, 1), medium ↦ (3, 3), high ↦ (5, 10). -/
theorem effort_parameter_mapping (now : Nat) (inp mod : String) (s : AppState)
    (h : (jsTrim inp).isEmpty = false) :
    ((handleSubmit now inp "low" mod s).2.map
        (fun r => (r.initial_search_query_count, r.max_research_loops)) = some (1, 1)) ∧
    ((handleSubmit now inp "medium" mod s).2.map
        (fun r => (r.initial_search_query_count, r.max_research_loops)) = some (3, 3)) ∧
    ((handleSubmit now inp "high" mod s).2.map
        (fun r => (r.initial_search_query_count, r.max_research_loops)) = some (5, 10)) := by
  unfold handleSubmit
  simp [h, effortParams]

/-- C5 witness: a concrete submission for each effort level. -/
theorem effort_parameter_mapping_witness :
    ((jsTrim "What is X?").isEmpty = false) ∧
    (((handleSubmit 0 "What is X?" "low" "gemini" initialState).2.map
        (fun r => (r.initial_search_query_count, r.max_research_loops)) = some (1, 1)) ∧
     ((handleSubmit 0 "What is X?" "medium" "gemini" initialState).2.map
        (fun r => (r.initial_search_query_count, r.max_research_loops)) = some (3, 3)) ∧
     ((handleSubmit 0 "What is X?" "high" "gemini" initialState).2.map
        (fun r => (r.initial_search_query_count, r.max_research_loops)) = some (5, 10))) :=
  ⟨by decide, effort_parameter_mapping 0 "What is X?" "gemini" initialState (by decide)⟩

/-- C7: when stream idle arrives with the terminal latch unset, the
idle-time effect changes nothing (in particular the history map gains no
entry), and the next successful submit clears the accumulator (and latch)
before any event of the new turn is processed. -/
theorem idle_without_terminal_no_commit (s : AppState) (b : Bool)
    (hflag : s.hasFinalizeEventOccurred = false)
    (now : Nat) (inp effort mod : String)
    (hinp : (jsTrim inp).isEmpty = false) :
    commitHistorical b s = s ∧
    (handleSubmit now inp effort mod s).1.processedEventsTimeline = [] ∧
    (handleSubmit now inp effort mod s).1.hasFinalizeEventOccurred = false := by
  refine ⟨?_, ?_, ?_⟩
  · unfold commitHistorical
    simp [hflag]
  · unfold handleSubmit
    simp [hinp]
  · unfold handleSubmit
    simp [hinp]

/-- C7 witness: a turn with one non-terminal event that goes idle without
a terminal event, followed by a fresh submission. -/
theorem idle_without_terminal_no_commit_witness :
    ((onCustomEvent 2 (nodeEnv "generate_query" "one query")
        (handleSubmit 1 "hi" "low" "gemini" initialState).1).hasFinalizeEventOccurred = false ∧
      (jsTrim "next question").isEmpty = false) ∧
    (commitHistorical false (onCustomEvent 2 (nodeEnv "generate_query" "one query")
          (handleSubmit 1 "hi" "low" "gemini" initialState).1)
        = onCustomEvent 2 (nodeEnv "generate_query" "one query")
          (handleSubmit 1 "hi" "low" "gemini" initialState).1 ∧
      (handleSubmit 3 "next question" "medium" "gemini"
          (onCustomEvent 2 (nodeEnv "generate_query" "one query")
            (handleSubmit 1 "hi" "low" "gemini" initialState).1)).1.processedEventsTimeline = [] ∧
      (handleSubmit 3 "next question" "medium" "gemini"
          (onCustomEvent 2 (nodeEnv "generate_query" "one query")
            (handleSubmit 1 "hi" "low" "gemini" initialState).1)).1.hasFinalizeEventOccurred = false) :=
  ⟨⟨by decide, by decide⟩,
   idle_without_terminal_no_commit
     (onCustomEvent 2 (nodeEnv "generate_query" "one query")
       (handleSubmit 1 "hi" "low" "gemini" initialState).1)
     false (by decide) 3 "next question" "medium" "gemini" (by decide)⟩

/-- C9 counterexample: the `evaluate_research` case stores the message
verbatim — a 200-character message is kept at length 200, with no
truncation to the claimed 100–150 range and no ellipsis marker. -/
theorem evaluate_research_not_truncated :
    (onCustomEvent 0 (nodeEnv "evaluate_research" longMessage200)
        initialState).processedEventsTimeline
      = [⟨"⚖️ Evaluating Research Progress", .str longMessage200, 0⟩] ∧
    longMessage200.length = 200 :=
  ⟨rfl, by decide⟩

/-- C9 (amended): the message-derived fields of the `generate_query` and
`web_research` cases are truncated at 150 characters with an ellipsis
appended (other truncating cases use 100 and 80), but the
`evaluate_research` case passes the message through untruncated. -/
theorem node_truncation_contrast (m : String) :
    dispatchNode (.str "generate_query") (.str m)
        = .ok (some ⟨"🔍 Generating Search Queries",
            if 150 < m.length then .str (m.take 150 ++ "...") else .str m⟩) ∧
    dispatchNode (.str "web_research") (.str m)
        = .ok (some ⟨"🌐 Web Research",
            if 150 < m.length then .str (m.take 150 ++ "...") else .str m⟩) ∧
    dispatchNode (.str "evaluate_research") (.str m)
        = .ok (some ⟨"⚖️ Evaluating Research Progress", .str m⟩) := by
  refine ⟨?_, ?_, rfl⟩ <;>
    · by_cases h : 150 < m.length <;>
        simp [dispatchNode, jsEqStr, jsTruncExpr, jsLenGt, jsLength, jsSubstring,
          Except.map, h]

/-- C10: a submission whose input trims to the empty string is a complete
no-op: the state (transcript, accumulator, latch, history) is unchanged
and no request is forwarded to the transport. -/
theorem empty_submit_noop (now : Nat) (inp effort mod : String) (s : AppState)
    (h : (jsTrim inp).isEmpty = true) :
    handleSubmit now inp effort mod s = (s, none) := by
  unfold handleSubmit
  simp [h]

/-- C10 witness: a whitespace-only input. -/
theorem empty_submit_noop_witness :
    ((jsTrim "   ").isEmpty = true) ∧
    handleSubmit 0 "   " "low" "gemini" initialState = (initialState, none) :=
  ⟨by decide, empty_submit_noop 0 "   " "low" "gemini" initialState (by decide)⟩

end App
